import Mathlib

/-!
Shallow embedding of the `archiGrad/searchengine` front-end (`src/search.js`)
and proofs about its specification claims.

Conventions of the embedding:
* JS strings are Lean `String`s; `str.includes(sub)` is substring containment,
  `str.toLowerCase()` is ASCII lowering, `query.split(/\s+/)` splits on maximal
  whitespace runs keeping boundary empty tokens (JS semantics), `str.trim()`
  drops whitespace at both ends.
* The corpus JSON object is a `TagData` holding its entries in iteration order.
* Falsy checks on JS strings (`!query`, `x || y`) treat exactly `""` (and the
  absent value) as falsy; all other strings are truthy.
-/

namespace SearchJs

/-- Whether the first character list is a prefix of the second. -/
def isPrefixChars : List Char → List Char → Bool
  | [], _ => true
  | _ :: _, [] => false
  | a :: as, b :: bs => a == b && isPrefixChars as bs

/-- Whether the first character list occurs contiguously inside the second. -/
def isSubChars : List Char → List Char → Bool
  | needle, [] => needle.isEmpty
  | needle, c :: rest => isPrefixChars needle (c :: rest) || isSubChars needle rest

/-- JS `hay.includes(needle)`: substring containment on the characters. -/
def jsIncludes (hay needle : String) : Bool :=
  isSubChars needle.data hay.data

/-- JS `s.toLowerCase()` (ASCII letters; tags and queries in this app are ASCII). -/
def lowerStr (s : String) : String :=
  String.mk (s.data.map Char.toLower)

/-- JS `s.split(/\s+/)` on the character list: split on maximal runs of
whitespace; a leading (resp. trailing) run contributes a leading (resp.
trailing) empty token, exactly as in JS. -/
def splitWs : List Char → List (List Char)
  | [] => [[]]
  | c :: rest =>
    let r := splitWs rest
    if c.isWhitespace then
      match rest with
      | [] => [] :: r
      | c2 :: _ => if c2.isWhitespace then r else [] :: r
    else
      match r with
      | [] => [[c]]
      | t :: ts => (c :: t) :: ts

/-- JS `s.split(/\s+/)` as a `String` operation (line 51 of `search.js`). -/
def jsSplitWs (s : String) : List String :=
  (splitWs s.data).map (fun l => String.mk l)

/-- JS `s.trim()`: drop whitespace from both ends. -/
def jsTrim (s : String) : String :=
  String.mk (((s.data.dropWhile Char.isWhitespace).reverse.dropWhile Char.isWhitespace).reverse)

/-- The `file.type` values occurring in the corpus: `"image"`, `"text"`, `"3d"`. -/
inductive FileType
  | image
  | text
  | model3d
deriving DecidableEq

/-- The string the enum value interpolates as in the markup (`result.type`). -/
def typeStr : FileType → String
  | FileType.image => "image"
  | FileType.text => "text"
  | FileType.model3d => "3d"

/-- One element of `file.tags`: `{ tag, confidence }` (confidence is display-only). -/
structure TagEntry where
  tag : String
  confidence : String
deriving DecidableEq

/-- One value of the corpus mapping. `color` is meaningful for images only,
`thumbnail` for 3d models only (`none` models an absent JSON field). -/
structure FileRecord where
  type : FileType
  tags : List TagEntry
  color : String
  thumbnail : Option String
deriving DecidableEq

/-- The corpus document `{ "files": { path: record, ... } }`; the association
list keeps the JSON object's iteration order, with unique path keys. -/
structure TagData where
  files : List (String × FileRecord)
deriving DecidableEq

/-- The `colorMap` table (lines 6-19 of `search.js`), in source order. -/
def colorMap : List (String × String) :=
  [("red", "#FF0000"), ("green", "#008000"), ("blue", "#0000FF"),
   ("black", "#000000"), ("white", "#FFFFFF"), ("yellow", "#FFFF00"),
   ("purple", "#800080"), ("orange", "#FFA500"), ("brown", "#A52A2A"),
   ("pink", "#FFC0CB"), ("gray", "#808080"), ("unknown", "#CCCCCC")]

/-- Evaluation of `colorMap[result.color] || result.color` (line 95): table lookup with the
raw name as fallback (every table value is a non-empty, hence truthy, string). -/
def swatchColor (c : String) : String :=
  match colorMap.lookup c with
  | some v => v
  | none => c

/-- Evaluation of `file.tags.map(t => t.tag.toLowerCase()).join(' ')` (line 61). -/
def joinedTags (file : FileRecord) : String :=
  String.intercalate " " (file.tags.map (fun t => lowerStr t.tag))

/-- The per-term match test of `searchFiles` (lines 56-63): the joined-tags
fallback sits INSIDE `file.tags.some(...)`, so a record with no tags never
matches any term. -/
def termMatches (file : FileRecord) (term : String) : Bool :=
  file.tags.any (fun tagObj =>
    jsIncludes (lowerStr tagObj.tag) term ||
    jsIncludes (joinedTags file) term)

/-- The function `searchFiles(query)` (lines 47-74). `!fileData || !query` guards the
unloaded corpus and the empty query (`""` is the only falsy string); matching
records are pushed in corpus iteration order, i.e. a filter. -/
def searchFiles (fileData : Option TagData) (query : String) : List (String × FileRecord) :=
  match fileData with
  | none => []
  | some data =>
    if query = "" then []
    else
      let q := lowerStr query
      let searchTerms := jsSplitWs q
      data.files.filter (fun pf =>
        searchTerms.all (fun term => termMatches pf.2 term))

/-- The `input` listener (lines 339-343): the raw input value is trimmed
before it is handed to `searchFiles`. -/
def onInputSearch (fileData : Option TagData) (value : String) : List (String × FileRecord) :=
  searchFiles fileData (jsTrim value)

/-- Modelled from the claim C1 wording: a term matches a record iff some
individual tag's lower-cased text contains the term, OR the space-joined
concatenation of all the record's lower-cased tag texts contains the term
(top-level disjunction, not nested under the per-tag existential). -/
def claimTermMatches (file : FileRecord) (term : String) : Bool :=
  file.tags.any (fun tagObj => jsIncludes (lowerStr tagObj.tag) term) ||
  jsIncludes (joinedTags file) term

/-- Modelled from the claim C1 wording: the records, in corpus iteration
order, for which every whitespace-delimited lower-cased term of the query
matches in the sense of `claimTermMatches`. -/
def claimSearch (data : TagData) (query : String) : List (String × FileRecord) :=
  data.files.filter (fun pf =>
    (jsSplitWs (lowerStr query)).all (fun term => claimTermMatches pf.2 term))

/-- For a non-empty list, pulling a constant disjunct out of an `any`:
`l.any (fun x => p x || b)` agrees with `l.any p || b` except that on the
empty list the left side is `false` while the right side is `b`. -/
theorem any_or_const {α : Type} (p : α → Bool) (b : Bool) (l : List α) :
    l.any (fun x => p x || b) = (l.any p || (!l.isEmpty && b)) := by
  cases b with
  | false => simp
  | true => cases l <;> simp

/-- The per-term matcher of the source equals the claim-side matcher guarded
by the record having at least one tag: nesting the joined-tags disjunct under
`tags.some` makes every term fail on a tagless record. -/
theorem termMatches_eq (r : FileRecord) (t : String) :
    termMatches r t = (!r.tags.isEmpty && claimTermMatches r t) := by
  unfold termMatches claimTermMatches
  rw [any_or_const]
  cases h : r.tags with
  | nil => simp
  | cons a as => simp

/-- A record with no tags, used to separate `searchFiles` from the claim C1
reading of the match rule. -/
def c1TaglessRecord : FileRecord :=
  { type := FileType.text, tags := [], color := "", thumbnail := none }

/-- A one-record corpus whose single record has no tags. -/
def c1Data : TagData := { files := [("empty.txt", c1TaglessRecord)] }

/-- C1 counterexample: on the corpus whose only record has no tags and the
query `" "` (a single space, which is truthy and splits into empty terms),
the code returns nothing while the claim's match rule — the joined-tags
disjunct taken at top level, so the empty concatenation contains the empty
term — returns the record. -/
theorem c1_counterexample :
    searchFiles (some c1Data) " " = [] ∧
    claimSearch c1Data " " = [("empty.txt", c1TaglessRecord)] := by
  constructor <;> decide

/-- C1 (amended): for every loaded corpus and query, `searchFiles` returns
exactly the records, in corpus iteration order with no ranking, for which
every whitespace-delimited lower-cased term of the query matches, where a
term matches a record iff the record has at least one tag AND (some
individual tag's lower-cased text contains the term as a substring, or the
space-joined concatenation of all the record's lower-cased tag texts
contains the term as a substring); the empty query returns the empty list. -/
theorem c1_search_semantics (data : TagData) (query : String) :
    searchFiles (some data) query =
      (if query = "" then []
       else data.files.filter (fun pf =>
         (jsSplitWs (lowerStr query)).all (fun term =>
           !pf.2.tags.isEmpty && claimTermMatches pf.2 term))) := by
  unfold searchFiles
  by_cases hq : query = ""
  · simp [hq]
  · simp only [if_neg hq, termMatches_eq]

/-- Dropping a satisfied prefix of an all-satisfying list drops everything. -/
theorem dropWhile_all {p : Char → Bool} :
    ∀ l : List Char, l.all p = true → l.dropWhile p = [] := by
  intro l h
  induction l with
  | nil => rfl
  | cons c rest ih =>
    simp only [List.all_cons, Bool.and_eq_true] at h
    simp [List.dropWhile, h.1, ih h.2]

/-- Trimming a string made of whitespace yields the empty string. -/
theorem jsTrim_of_whitespace (q : String) (h : q.data.all Char.isWhitespace = true) :
    jsTrim q = "" := by
  unfold jsTrim
  rw [dropWhile_all q.data h]
  rfl

/-- A one-record corpus whose single record carries the tag `cat`. -/
def c5Data : TagData :=
  { files := [("a.txt",
      { type := FileType.text, tags := [{ tag := "cat", confidence := "100%" }],
        color := "", thumbnail := none })] }

/-- C5 counterexample: the whitespace-only query `" "` handed directly to
`searchFiles` is truthy, splits into empty terms, and an empty term is a
substring of every tag, so the tagged record is returned — not the empty
sequence the claim states. -/
theorem c5_counterexample : searchFiles (some c5Data) " " ≠ [] := by decide

/-- C5 (amended): the empty query, an unloaded corpus, and an empty corpus
each yield the empty sequence; a whitespace-only query yields the empty
sequence through the input pipeline, because the `input` listener trims the
value to the empty string before calling `searchFiles` — but `searchFiles`
applied directly to a whitespace-only query instead matches every record
with at least one tag. -/
theorem c5_empty_inputs :
    (∀ d : Option TagData, searchFiles d "" = []) ∧
    (∀ q : String, searchFiles none q = []) ∧
    (∀ q : String, searchFiles (some { files := [] }) q = []) ∧
    (∀ (d : Option TagData) (q : String), q.data.all Char.isWhitespace = true →
      onInputSearch d q = []) := by
  refine ⟨?_, ?_, ?_, ?_⟩
  · intro d; cases d <;> simp [searchFiles]
  · intro q; rfl
  · intro q; unfold searchFiles; by_cases hq : q = "" <;> simp [hq]
  · intro d q h
    unfold onInputSearch
    rw [jsTrim_of_whitespace q h]
    cases d <;> simp [searchFiles]

/-- Witness for C5: the concrete whitespace-only value `"  "` flows through
the trimming input listener to the empty result on a non-empty corpus. -/
theorem c5_witness :
    ("  ".data.all Char.isWhitespace = true) ∧ onInputSearch (some c5Data) "  " = [] :=
  ⟨by decide, c5_empty_inputs.2.2.2 (some c5Data) "  " (by decide)⟩

/-- The double-quote character (`U+0022`). -/
def quoteChar : Char := Char.ofNat 34

/-- The apostrophe character (`U+0027`). -/
def aposChar : Char := Char.ofNat 39

/-- Replace every occurrence of a character by a replacement list, one input
character at a time; this is the meaning of a global single-character regex
replace such as `.replace(/&/g, "&amp;")`. -/
def expandChars (f : Char → List Char) : List Char → List Char
  | [] => []
  | c :: rest => f c ++ expandChars f rest

/-- JS `s.replace(/c/g, rep)` for a single character `c`. -/
def replaceChar (c : Char) (rep : String) (s : String) : String :=
  String.mk (expandChars (fun ch => if ch = c then rep.data else [ch]) s.data)

/-- The function `escapeHtml` (lines 330-337 of `search.js`): the five global replaces in
source order, ampersand first. -/
def escapeHtml (s : String) : String :=
  replaceChar aposChar "&#039;"
    (replaceChar quoteChar "&quot;"
      (replaceChar '>' "&gt;"
        (replaceChar '<' "&lt;"
          (replaceChar '&' "&amp;" s))))

/-- The per-character expansion that the five-stage replace chain performs:
ampersand is expanded first, so the ampersands introduced by the other four
entities are never re-expanded. -/
def escCharL (c : Char) : List Char :=
  if c = '&' then "&amp;".data
  else if c = '<' then "&lt;".data
  else if c = '>' then "&gt;".data
  else if c = quoteChar then "&quot;".data
  else if c = aposChar then "&#039;".data
  else [c]

/-- The map `expandChars` distributes over list append. -/
theorem expandChars_append (f : Char → List Char) (l₁ l₂ : List Char) :
    expandChars f (l₁ ++ l₂) = expandChars f l₁ ++ expandChars f l₂ := by
  induction l₁ with
  | nil => rfl
  | cons c rest ih => simp [expandChars, ih]

/-- Two stacked expansions fuse into one expansion by the composite map. -/
theorem expandChars_expandChars (g f : Char → List Char) (l : List Char) :
    expandChars g (expandChars f l) = expandChars (fun c => expandChars g (f c)) l := by
  induction l with
  | nil => rfl
  | cons c rest ih => simp [expandChars, expandChars_append, ih]

/-- Pointwise equal character maps expand lists equally. -/
theorem expandChars_congr {f g : Char → List Char} (h : ∀ c, f c = g c) (l : List Char) :
    expandChars f l = expandChars g l := by
  induction l with
  | nil => rfl
  | cons c rest ih => simp [expandChars, h c, ih]

/-- The five-stage replace chain of `escapeHtml` acts on the characters as
the single per-character expansion `escCharL`. -/
theorem escapeHtml_data (s : String) :
    (escapeHtml s).data = expandChars escCharL s.data := by
  show expandChars _ (expandChars _ (expandChars _ (expandChars _ (expandChars _ s.data)))) = _
  rw [expandChars_expandChars, expandChars_expandChars, expandChars_expandChars,
      expandChars_expandChars]
  apply expandChars_congr
  intro c
  by_cases h1 : c = '&'
  · subst h1; rfl
  by_cases h2 : c = '<'
  · subst h2; rfl
  by_cases h3 : c = '>'
  · subst h3; rfl
  by_cases h4 : c = quoteChar
  · subst h4; rfl
  by_cases h5 : c = aposChar
  · subst h5; rfl
  · simp [expandChars, escCharL, h1, h2, h3, h4, h5]

/-- The four HTML-significant characters other than the ampersand. -/
def badChar (c : Char) : Bool :=
  c == '<' || c == '>' || c == quoteChar || c == aposChar

/-- The five entity spellings that `escapeHtml` introduces. -/
def htmlEntities : List (List Char) :=
  ["&amp;".data, "&lt;".data, "&gt;".data, "&quot;".data, "&#039;".data]

/-- Every ampersand in the list begins one of the five introduced entities. -/
def ampsOk : List Char → Bool
  | [] => true
  | c :: rest =>
    (if c == '&' then htmlEntities.any (fun e => isPrefixChars e (c :: rest)) else true)
      && ampsOk rest

/-- No expansion output contains one of the four bracket or quote characters. -/
theorem allGood_expand (l : List Char) :
    (expandChars escCharL l).all (fun c => !badChar c) = true := by
  induction l with
  | nil => rfl
  | cons c rest ih =>
    rw [show expandChars escCharL (c :: rest) = escCharL c ++ expandChars escCharL rest
          from rfl, List.all_append]
    refine (Bool.and_eq_true _ _).mpr ⟨?_, ih⟩
    by_cases h1 : c = '&'
    · subst h1; decide
    by_cases h2 : c = '<'
    · subst h2; decide
    by_cases h3 : c = '>'
    · subst h3; decide
    by_cases h4 : c = quoteChar
    · subst h4; decide
    by_cases h5 : c = aposChar
    · subst h5; decide
    · simp [escCharL, h1, h2, h3, h4, h5, badChar]

/-- Prepending the `&amp;` entity preserves `ampsOk`. -/
theorem ampsOk_amp (t : List Char) : ampsOk ("&amp;".data ++ t) = ampsOk t := by
  simp [ampsOk, htmlEntities, isPrefixChars]

/-- Prepending the `&lt;` entity preserves `ampsOk`. -/
theorem ampsOk_lt (t : List Char) : ampsOk ("&lt;".data ++ t) = ampsOk t := by
  simp [ampsOk, htmlEntities, isPrefixChars]

/-- Prepending the `&gt;` entity preserves `ampsOk`. -/
theorem ampsOk_gt (t : List Char) : ampsOk ("&gt;".data ++ t) = ampsOk t := by
  simp [ampsOk, htmlEntities, isPrefixChars]

/-- Prepending the `&quot;` entity preserves `ampsOk`. -/
theorem ampsOk_quot (t : List Char) : ampsOk ("&quot;".data ++ t) = ampsOk t := by
  simp [ampsOk, htmlEntities, isPrefixChars]

/-- Prepending the `&#039;` entity preserves `ampsOk`. -/
theorem ampsOk_apos (t : List Char) : ampsOk ("&#039;".data ++ t) = ampsOk t := by
  simp [ampsOk, htmlEntities, isPrefixChars]

/-- Prepending a non-ampersand character preserves `ampsOk`. -/
theorem ampsOk_cons (c : Char) (h : ¬c = '&') (t : List Char) :
    ampsOk (c :: t) = ampsOk t := by
  simp [ampsOk, h]

/-- Every ampersand in an expansion output begins an introduced entity. -/
theorem ampsOk_expand (l : List Char) :
    ampsOk (expandChars escCharL l) = true := by
  induction l with
  | nil => rfl
  | cons c rest ih =>
    rw [show expandChars escCharL (c :: rest) = escCharL c ++ expandChars escCharL rest
          from rfl]
    by_cases h1 : c = '&'
    · subst h1
      rw [show escCharL '&' = "&amp;".data from rfl, ampsOk_amp]; exact ih
    by_cases h2 : c = '<'
    · subst h2
      rw [show escCharL '<' = "&lt;".data from rfl, ampsOk_lt]; exact ih
    by_cases h3 : c = '>'
    · subst h3
      rw [show escCharL '>' = "&gt;".data from rfl, ampsOk_gt]; exact ih
    by_cases h4 : c = quoteChar
    · subst h4
      rw [show escCharL quoteChar = "&quot;".data from rfl, ampsOk_quot]; exact ih
    by_cases h5 : c = aposChar
    · subst h5
      rw [show escCharL aposChar = "&#039;".data from rfl, ampsOk_apos]; exact ih
    · rw [show escCharL c = [c] by simp [escCharL, h1, h2, h3, h4, h5],
          List.singleton_append, ampsOk_cons c h1]
      exact ih

/-- C6: for every source string, the output of `escapeHtml` contains no
`<`, `>`, double-quote or apostrophe character at all, and every ampersand
it emits begins one of the five introduced entities (`&amp;` `&lt;` `&gt;`
`&quot;` `&#039;`) — so the five HTML-significant characters are escaped
before the content is treated as markup. -/
theorem c6_escape_html_safe (s : String) :
    ((escapeHtml s).data.all (fun c => !badChar c) = true) ∧
    (ampsOk (escapeHtml s).data = true) := by
  rw [escapeHtml_data]
  exact ⟨allGood_expand s.data, ampsOk_expand s.data⟩

/-- JS `fileContents[path] || 'Loading...'` (line 126): the absent value and
the empty string are falsy, so both fall back to the pending placeholder. -/
def jsOrLoading (o : Option String) : String :=
  match o with
  | some s => if s = "" then "Loading..." else s
  | none => "Loading..."

/-- JS `array.join('')`: plain concatenation. -/
def strJoin : List String → String
  | [] => ""
  | s :: rest => s ++ strJoin rest

/-- One tag chip of the result card (line 101). -/
def tagSpan (t : TagEntry) : String :=
  "<span class=\"tag\">" ++ t.tag ++ " (" ++ t.confidence ++ ")</span>"

/-- The color swatch block of an image result card (lines 93-98). -/
def colorIndicator (c : String) : String :=
  "<div class=\"color-indicator\"><span class=\"color-dot\" style=\"background-color: "
    ++ swatchColor c ++ "\"></span><span>" ++ c ++ "</span></div>"

/-- The 3d view button of a model result card (line 105). -/
def viewButton (p : String) : String :=
  "<button class=\"view-3d-btn\" data-path=\"" ++ p ++ "\">View 3D Model</button>"

/-- The generic placeholder for a 3d record without thumbnail (lines 136-143). -/
def modelPlaceholderHtml : String :=
  "<div class=\"model-placeholder\"><div class=\"model-icon\"><svg width=\"64\" height=\"64\" viewBox=\"0 0 24 24\"><path fill=\"#666\" d=\"M12,0L3,7L4,8.18V16.18L12,21L20,16.18V8.18L21,7L12,0M12,2.5L17.5,6.5L12,10.5L6.5,6.5L12,2.5M5,9.21V15.07L11,19V13.35L5,9.21M19,9.21L13,13.35V19L19,15.07V9.21Z\"/></svg></div><div>3D Model Preview</div></div>"

/-- The function `getFilePreview(result)` (lines 122-147), for a result `{path, ...file}`
(modelled as the pair of path and record); surrounding indentation whitespace
of the source template is normalized away. Only the text branch passes its
interpolated value through `escapeHtml`. -/
def getFilePreview (cache : List (String × String)) (res : String × FileRecord) : String :=
  if res.2.type = FileType.image then
    "<img src=\"data/" ++ res.1 ++ "\" alt=\"" ++ res.1 ++ "\">"
  else if res.2.type = FileType.text then
    let content := jsOrLoading (cache.lookup res.1)
    "<div class=\"text-content\">" ++ escapeHtml content ++ "</div>"
  else if res.2.type = FileType.model3d then
    match res.2.thumbnail with
    | some th =>
      if th = "" then modelPlaceholderHtml
      else
        "<div class=\"model-placeholder\"><img src=\"data/" ++ th ++ "\" alt=\""
          ++ res.1 ++ "\" class=\"model-thumbnail\"></div>"
    | none => modelPlaceholderHtml
  else ""

/-- Literal chunk of the result-card template (lines 85-109). -/
def riP1 : String := "<div class=\"result-item\"><div class=\"file-preview\">"

/-- Literal chunk of the result-card template. -/
def riP2 : String := "</div><div class=\"result-info\"><div class=\"file-type\">"

/-- Literal chunk of the result-card template. -/
def riP3 : String := "</div><div class=\"file-path\">"

/-- Literal chunk of the result-card template. -/
def riP4 : String := "</div>"

/-- Literal chunk of the result-card template. -/
def tagsOpen : String := "<div class=\"tags\">"

/-- Literal chunk of the result-card template. -/
def tagsClose : String := "</div>"

/-- Literal chunk of the result-card template. -/
def riEnd : String := "</div></div>"

/-- One result card of `displayResults` (lines 85-109): every interpolation
except the text body inside `getFilePreview` is inserted verbatim. -/
def resultItemHtml (cache : List (String × String)) (res : String × FileRecord) : String :=
  riP1 ++ getFilePreview cache res ++ riP2 ++ typeStr res.2.type ++ riP3 ++ res.1 ++ riP4
    ++ (if res.2.type = FileType.image then colorIndicator res.2.color else "")
    ++ tagsOpen ++ strJoin (res.2.tags.map tagSpan) ++ tagsClose
    ++ (if res.2.type = FileType.model3d then viewButton res.1 else "")
    ++ riEnd

/-- The grid content of `displayResults`: the joined result cards (line 85/109). -/
def displayResultsHtml (cache : List (String × String)) (results : List (String × FileRecord)) : String :=
  strJoin (results.map (resultItemHtml cache))

/-- The string `needle` occurs contiguously (verbatim) inside `hay`. -/
def substrOf (needle hay : String) : Prop :=
  ∃ s t : List Char, s ++ needle.data ++ t = hay.data

/-- Appending strings appends their character lists. -/
theorem strData_append (a b : String) : (a ++ b).data = a.data ++ b.data := rfl

/-- Every string occurs in itself. -/
theorem substrOf_refl (s : String) : substrOf s s := ⟨[], [], by simp⟩

/-- An occurrence persists when text is appended on the right. -/
theorem substrOf_appL {n a : String} (h : substrOf n a) (b : String) : substrOf n (a ++ b) := by
  obtain ⟨s, t, hs⟩ := h
  exact ⟨s, t ++ b.data, by rw [strData_append, ← hs]; simp⟩

/-- An occurrence persists when text is prepended on the left. -/
theorem substrOf_appR {n b : String} (h : substrOf n b) (a : String) : substrOf n (a ++ b) := by
  obtain ⟨s, t, hs⟩ := h
  exact ⟨a.data ++ s, t, by rw [strData_append, ← hs]; simp⟩

/-- Occurrence is transitive through an intermediate string. -/
theorem substrOf_trans {a b c : String} (h1 : substrOf a b) (h2 : substrOf b c) :
    substrOf a c := by
  obtain ⟨s, t, hs⟩ := h1
  obtain ⟨u, v, hu⟩ := h2
  exact ⟨u ++ s, t ++ v, by rw [← hu, ← hs]; simp⟩

/-- A member's image occurs inside the concatenation of all images. -/
theorem substrOf_strJoin {α : Type} (f : α → String) {x : α} :
    ∀ {l : List α}, x ∈ l → substrOf (f x) (strJoin (l.map f))
  | [], h => absurd h (List.not_mem_nil x)
  | a :: as, h => by
    rw [List.map_cons, strJoin]
    rcases List.mem_cons.mp h with h' | h'
    · subst h'; exact substrOf_appL (substrOf_refl (f x)) _
    · exact substrOf_appR (substrOf_strJoin f h') _

/-- Anything occurring in the preview block occurs in the whole result card. -/
theorem substr_in_preview {n : String} (cache : List (String × String))
    (res : String × FileRecord) (h : substrOf n (getFilePreview cache res)) :
    substrOf n (resultItemHtml cache res) := by
  unfold resultItemHtml
  exact substrOf_appL (substrOf_appL (substrOf_appL (substrOf_appL (substrOf_appL
    (substrOf_appL (substrOf_appL (substrOf_appL (substrOf_appL (substrOf_appL
      (substrOf_appL (substrOf_appR h _) _) _) _) _) _) _) _) _) _) _) _

/-- The path occurs verbatim in the file-path block of the result card. -/
theorem substr_path_in_item (cache : List (String × String)) (res : String × FileRecord) :
    substrOf res.1 (resultItemHtml cache res) := by
  unfold resultItemHtml
  exact substrOf_appL (substrOf_appL (substrOf_appL (substrOf_appL (substrOf_appL
    (substrOf_appL (substrOf_appL (substrOf_appR (substrOf_refl _) _) _) _) _) _) _) _) _

/-- Anything occurring in the joined tag chips occurs in the result card. -/
theorem substr_in_tags {n : String} (cache : List (String × String))
    (res : String × FileRecord) (h : substrOf n (strJoin (res.2.tags.map tagSpan))) :
    substrOf n (resultItemHtml cache res) := by
  unfold resultItemHtml
  exact substrOf_appL (substrOf_appL (substrOf_appL (substrOf_appR h _) _) _) _

/-- Anything occurring in the color-indicator block of an image result card
occurs in the result card. -/
theorem substr_in_color {n : String} (cache : List (String × String))
    (res : String × FileRecord) (himg : res.2.type = FileType.image)
    (h : substrOf n (colorIndicator res.2.color)) :
    substrOf n (resultItemHtml cache res) := by
  unfold resultItemHtml
  rw [himg]
  simp only [reduceIte]
  exact substrOf_appL (substrOf_appL (substrOf_appL (substrOf_appL (substrOf_appL
    (substrOf_appR h _) _) _) _) _) _

/-- C7 counterexample: `"teal"` is not in the table, and the swatch value the
code produces for it is the raw name `"teal"` — not the neutral gray of the
`unknown` table entry (`#CCCCCC`) nor the `gray` entry (`#808080`), so
unrecognized names do not default to a neutral gray. -/
theorem c7_counterexample :
    colorMap.lookup "teal" = none ∧ swatchColor "teal" = "teal" ∧
    ¬swatchColor "teal" = "#CCCCCC" ∧ ¬swatchColor "teal" = "#808080" := by
  refine ⟨by decide, by decide, by decide, by decide⟩

/-- C7 (amended): for every image record the projected swatch is resolved
through the fixed name→hex table — a name present in the table yields its hex
value, and the literal name `"unknown"` is the entry that yields the neutral
gray `#CCCCCC` — while a color name not present in the table is used verbatim
as the swatch value; the resolved swatch value appears in the image result
card. -/
theorem c7_swatch_resolution :
    (∀ c v : String, colorMap.lookup c = some v → swatchColor c = v) ∧
    (∀ c : String, colorMap.lookup c = none → swatchColor c = c) ∧
    colorMap.lookup "unknown" = some "#CCCCCC" ∧
    (∀ (cache : List (String × String)) (res : String × FileRecord),
      res.2.type = FileType.image →
      substrOf (swatchColor res.2.color) (resultItemHtml cache res)) := by
  refine ⟨?_, ?_, by decide, ?_⟩
  · intro c v h; unfold swatchColor; rw [h]
  · intro c h; unfold swatchColor; rw [h]
  · intro cache res himg
    apply substr_in_color cache res himg
    unfold colorIndicator
    exact substrOf_appL (substrOf_appL (substrOf_appL
      (substrOf_appR (substrOf_refl _) _) _) _) _

/-- A concrete image record used to instantiate the markup theorems. -/
def imgRecord : FileRecord :=
  { type := FileType.image,
    tags := [{ tag := "dog", confidence := "90%" }],
    color := "blue", thumbnail := none }

/-- Witness for C7: the table resolves `"red"`, falls through on `"teal"`,
and the resolved swatch of a concrete image record occurs in its card. -/
theorem c7_witness :
    (colorMap.lookup "red" = some "#FF0000" ∧ swatchColor "red" = "#FF0000") ∧
    (colorMap.lookup "teal" = none ∧ swatchColor "teal" = "teal") ∧
    substrOf (swatchColor "blue") (resultItemHtml [] ("b.png", imgRecord)) :=
  ⟨⟨by decide, c7_swatch_resolution.1 "red" "#FF0000" (by decide)⟩,
   ⟨by decide, c7_swatch_resolution.2.1 "teal" (by decide)⟩,
   c7_swatch_resolution.2.2.2 [] ("b.png", imgRecord) rfl⟩

/-- The module-level mutable state (lines 1-2 of `search.js`): the corpus
(`fileData`, initially `null`) and the text-body cache (`fileContents`). -/
structure AppState where
  fileData : Option TagData
  fileContents : List (String × String)

/-- The state at page load: no corpus, empty cache. -/
def initialApp : AppState := { fileData := none, fileContents := [] }

/-- The function `loadTextContents` (lines 33-45): for every text record, fetch its body
keyed by path; a failed fetch caches the fixed error string instead. The
fetch outcome is passed in as a function from paths to results. -/
def loadTextContents (fetchText : String → Except String String) (d : TagData)
    (cache : List (String × String)) : List (String × String) :=
  d.files.foldl (fun acc pf =>
    if pf.2.type = FileType.text then
      acc ++ [(pf.1,
        match fetchText pf.1 with
        | Except.ok s => s
        | Except.error _ => "Error loading file content")]
    else acc) cache

/-- The function `loadData` (lines 21-31): on a successful fetch-and-parse the corpus is
stored and the text bodies are pre-loaded; on failure the `catch` only logs,
leaving the state untouched (the corpus stays absent). -/
def loadData (fetchJson : Except String TagData)
    (fetchText : String → Except String String) (st : AppState) : AppState :=
  match fetchJson with
  | Except.ok d =>
      { st with fileData := some d,
                fileContents := loadTextContents fetchText d st.fileContents }
  | Except.error _ => st

/-- C8: if the startup corpus fetch or parse fails, the failure is absorbed —
the corpus stays absent and every subsequent search call returns the empty
sequence; the failure is never fatal (the load step returns normally). -/
theorem c8_corpus_failure_safe (e : String) (ft : String → Except String String)
    (q : String) :
    (loadData (Except.error e) ft initialApp).fileData = none ∧
    searchFiles (loadData (Except.error e) ft initialApp).fileData q = [] :=
  ⟨rfl, rfl⟩

/-- C9: for every rendered result card, the file path, each tag text and
confidence, the color name of an image record, and a non-empty thumbnail path
of a 3d record are interpolated into the markup verbatim (they occur in the
output exactly as given, without passing through the escaping function), and
the escaping function is applied exactly to the text-file body content: the
text preview is the fixed wrapper around `escapeHtml` of the cached body. -/
theorem c9_verbatim_interpolation (cache : List (String × String))
    (res : String × FileRecord) :
    substrOf res.1 (resultItemHtml cache res) ∧
    (∀ te ∈ res.2.tags,
      substrOf te.tag (resultItemHtml cache res) ∧
      substrOf te.confidence (resultItemHtml cache res)) ∧
    (res.2.type = FileType.image → substrOf res.2.color (resultItemHtml cache res)) ∧
    (res.2.type = FileType.model3d → ∀ th : String, res.2.thumbnail = some th →
      ¬th = "" → substrOf th (resultItemHtml cache res)) ∧
    (res.2.type = FileType.text → getFilePreview cache res =
      "<div class=\"text-content\">" ++ escapeHtml (jsOrLoading (cache.lookup res.1))
        ++ "</div>") := by
  refine ⟨substr_path_in_item cache res, ?_, ?_, ?_, ?_⟩
  · intro te hte
    constructor
    · apply substr_in_tags cache res
      apply substrOf_trans _ (substrOf_strJoin tagSpan hte)
      unfold tagSpan
      exact substrOf_appL (substrOf_appL (substrOf_appL
        (substrOf_appR (substrOf_refl _) _) _) _) _
    · apply substr_in_tags cache res
      apply substrOf_trans _ (substrOf_strJoin tagSpan hte)
      unfold tagSpan
      exact substrOf_appL (substrOf_appR (substrOf_refl _) _) _
  · intro himg
    apply substr_in_color cache res himg
    unfold colorIndicator
    exact substrOf_appL (substrOf_appR (substrOf_refl _) _) _
  · intro hm th hth hne
    apply substr_in_preview cache res
    unfold getFilePreview
    rw [hm, hth]
    simp only [reduceIte, if_neg hne]
    exact substrOf_appL (substrOf_appL (substrOf_appL
      (substrOf_appR (substrOf_refl _) _) _) _) _
  · intro ht
    unfold getFilePreview
    rw [ht]
    rw [if_neg (by decide : ¬FileType.text = FileType.image)]
    simp only [reduceIte]

/-- A concrete 3d record with a thumbnail. -/
def modelRecord : FileRecord :=
  { type := FileType.model3d,
    tags := [{ tag := "chair", confidence := "80%" }],
    color := "", thumbnail := some "thumbs/chair.png" }

/-- A concrete text record. -/
def textRecord : FileRecord :=
  { type := FileType.text,
    tags := [{ tag := "cat", confidence := "100%" }],
    color := "", thumbnail := none }

/-- Witness for C9 at concrete records: verbatim path, tag text, confidence,
color and thumbnail occurrences, and the escaped text body. -/
theorem c9_witness :
    substrOf "b.png" (resultItemHtml [] ("b.png", imgRecord)) ∧
    substrOf "dog" (resultItemHtml [] ("b.png", imgRecord)) ∧
    substrOf "90%" (resultItemHtml [] ("b.png", imgRecord)) ∧
    substrOf "blue" (resultItemHtml [] ("b.png", imgRecord)) ∧
    substrOf "thumbs/chair.png" (resultItemHtml [] ("m.glb", modelRecord)) ∧
    getFilePreview [("a.txt", "x<y")] ("a.txt", textRecord) =
      "<div class=\"text-content\">" ++ escapeHtml "x<y" ++ "</div>" :=
  ⟨(c9_verbatim_interpolation [] ("b.png", imgRecord)).1,
   ((c9_verbatim_interpolation [] ("b.png", imgRecord)).2.1
      { tag := "dog", confidence := "90%" } (by decide)).1,
   ((c9_verbatim_interpolation [] ("b.png", imgRecord)).2.1
      { tag := "dog", confidence := "90%" } (by decide)).2,
   (c9_verbatim_interpolation [] ("b.png", imgRecord)).2.2.1 rfl,
   (c9_verbatim_interpolation [] ("m.glb", modelRecord)).2.2.2.1 rfl
      "thumbs/chair.png" rfl (by decide),
   by
     have h := (c9_verbatim_interpolation [("a.txt", "x<y")] ("a.txt", textRecord)).2.2.2.2 rfl
     rw [h]
     rfl⟩

/-- C10: for a text record whose cached body is the empty string (a body
fetch that completed successfully with empty content) and equally while no
cache entry exists yet, the preview shows the pending placeholder
`Loading...` instead of the body, because the cache is consulted with a JS
falsy check rather than a key-membership check. -/
theorem c10_empty_body_placeholder (cache : List (String × String)) (p : String)
    (r : FileRecord) (ht : r.type = FileType.text)
    (hc : cache.lookup p = some "" ∨ cache.lookup p = none) :
    getFilePreview cache (p, r) = "<div class=\"text-content\">Loading...</div>" := by
  have hload : jsOrLoading (cache.lookup p) = "Loading..." := by
    rcases hc with h | h <;> simp [jsOrLoading, h]
  unfold getFilePreview
  rw [show ((p, r) : String × FileRecord).2.type = r.type from rfl, ht]
  rw [if_neg (by decide : ¬FileType.text = FileType.image)]
  simp only [reduceIte]
  rw [hload]
  rfl

/-- A one-text-record corpus for the C10 witness. -/
def c10Data : TagData := { files := [("a.txt", textRecord)] }

/-- The cache produced by a text-body fetch that succeeds with empty content:
`loadTextContents` stores the empty string under the record's path. -/
def c10Cache : List (String × String) :=
  loadTextContents (fun _ => Except.ok "") c10Data []

/-- Witness for C10: after an empty-bodied successful fetch, the concrete
cache maps the path to `""` and the preview shows the placeholder. -/
theorem c10_witness :
    (c10Cache.lookup "a.txt" = some "" ∨ c10Cache.lookup "a.txt" = none) ∧
    getFilePreview c10Cache ("a.txt", textRecord) =
      "<div class=\"text-content\">Loading...</div>" :=
  ⟨Or.inl (by decide),
   c10_empty_body_placeholder c10Cache "a.txt" textRecord rfl (Or.inl (by decide))⟩

/-- State of the 3d viewer as observable from `search.js`. Sessions are
numbered by creation order (`nextId` is the generation counter). The fields
record, per session, the resources the source allocates and frees:
* `currentModel` — the global `currentModel` variable (line 3): the session
  whose decoded scene root is currently attached (set at line 247 by the
  success callback, cleared by `closeModelViewer` lines 186-189);
* `renderLoops` — sessions whose `animate` loop is self-rescheduling via
  `requestAnimationFrame` (started at line 309; no `cancelAnimationFrame`
  exists anywhere in the source, so nothing ever removes an entry);
* `resizeListeners` — sessions whose window-resize listener is attached
  (added at line 312; no `removeEventListener` exists in the source);
* `containerLoadingTexts` — sessions whose loading-indicator node is a child
  of `#model-container` (appended at line 237; `container.innerHTML = ''` at
  line 196 clears the container when the next session initializes);
* `loadingTexts` — the `innerHTML` of each session's loading-indicator node,
  attached or not;
* `modalOpen` — whether the modal is displayed. -/
structure ViewerState where
  modalOpen : Bool
  currentModel : Option Nat
  renderLoops : List Nat
  resizeListeners : List Nat
  containerLoadingTexts : List Nat
  loadingTexts : List (Nat × String)
  nextId : Nat
deriving DecidableEq

/-- The viewer before any 3d preview is requested. -/
def viewerStart : ViewerState :=
  { modalOpen := false, currentModel := none, renderLoops := [],
    resizeListeners := [], containerLoadingTexts := [], loadingTexts := [],
    nextId := 0 }

/-- The function `initThreeJsViewer` (lines 193-317): empties the container (detaching the
previous session's nodes), builds the rendering surface, appends a fresh
loading indicator, starts the decode, starts `animate` (which reschedules
itself unconditionally every frame, line 305) and registers a window-resize
listener. Nothing stops the previous session's loop or listener. -/
def initThreeJsViewer (st : ViewerState) : ViewerState :=
  { st with
    containerLoadingTexts := [st.nextId],
    loadingTexts := (st.nextId, "Loading 3D model...") :: st.loadingTexts,
    renderLoops := st.nextId :: st.renderLoops,
    resizeListeners := st.nextId :: st.resizeListeners,
    nextId := st.nextId + 1 }

/-- The function `openModelViewer` (lines 153-177): shows the modal (creating it on first
use) and immediately initializes a new viewer session — with no teardown of
any session already running. -/
def openModelViewer (st : ViewerState) : ViewerState :=
  initThreeJsViewer { st with modalOpen := true }

/-- The function `closeModelViewer` (lines 179-190): hides the modal and disposes the
attached model root if any; it does not cancel any `animate` loop, does not
remove any resize listener, and does not touch the container's children. -/
def closeModelViewer (st : ViewerState) : ViewerState :=
  { st with modalOpen := false, currentModel := none }

/-- The decode success callback of session `sid` (lines 243-290). Its first
statement is `container.removeChild(loadingText)`: if the session's loading
indicator is no longer a child of the container (a later session's
initialization cleared it), the DOM call throws `NotFoundError` and the rest
of the callback is skipped — the returned flag records that an exception
escaped. Otherwise the indicator is removed, the decoded scene is attached,
and the global `currentModel` is overwritten with this session's root. -/
def successCb (sid : Nat) (st : ViewerState) : ViewerState × Bool :=
  if st.containerLoadingTexts.contains sid then
    ({ st with
        containerLoadingTexts := st.containerLoadingTexts.filter (fun x => !(x == sid)),
        currentModel := some sid }, false)
  else (st, true)

/-- The decode progress callback of session `sid` (lines 291-295): writes the
percentage into that session's own loading-indicator node (whether or not the
node is still in the container). -/
def progressCb (sid : Nat) (percent : Nat) (st : ViewerState) : ViewerState :=
  { st with
    loadingTexts := st.loadingTexts.map (fun p =>
      if p.1 = sid then (sid, "Loading: " ++ toString percent ++ "%") else p) }

/-- The decode error callback of session `sid` (lines 296-300): writes the
failure text into that session's own loading-indicator node. -/
def errorCb (sid : Nat) (st : ViewerState) : ViewerState :=
  { st with
    loadingTexts := st.loadingTexts.map (fun p =>
      if p.1 = sid then (sid, "Error loading model") else p) }

/-- The loading text actually displayed inside `#model-container`: the
contents of the indicator nodes that are its children. -/
def displayedTexts (st : ViewerState) : List String :=
  (st.loadingTexts.filter (fun p => st.containerLoadingTexts.contains p.1)).map
    (fun p => p.2)

/-- C2 evidence: opening a second asset while the first session is live
leaves BOTH sessions' `animate` loops self-rescheduling and both resize
listeners attached — the source performs no teardown of the previous session
before the new Opening transition, so two render loops run concurrently,
contradicting the single-session invariant the claim states. -/
theorem c2_two_render_loops :
    (openModelViewer (openModelViewer viewerStart)).renderLoops.length = 2 ∧
    (openModelViewer (openModelViewer viewerStart)).resizeListeners.length = 2 ∧
    (openModelViewer (openModelViewer viewerStart)).renderLoops = [1, 0] := by
  refine ⟨by decide, by decide, by decide⟩

/-- C3 evidence: after open → decode success → close, the close releases the
model root (`currentModel` is cleared, line 186-189) but the session's
`animate` loop is still rescheduling itself and the window-resize listener is
still attached — the source has no `cancelAnimationFrame` and no
`removeEventListener`, contradicting the claim that Closing stops the render
loop and detaches the resize observer. -/
theorem c3_close_leaks_loop_and_listener :
    (closeModelViewer (successCb 0 (openModelViewer viewerStart)).1).currentModel
        = none ∧
    (closeModelViewer (successCb 0 (openModelViewer viewerStart)).1).renderLoops
        = [0] ∧
    (closeModelViewer (successCb 0 (openModelViewer viewerStart)).1).resizeListeners
        = [0] := by
  refine ⟨by decide, by decide, by decide⟩

/-- C4 evidence: a stale decode success callback is not a silent no-op.
(i) If session 0 was superseded by session 1, session 0's success callback
throws: its `container.removeChild(loadingText)` targets a node the newer
session's initialization already removed. (ii) If the viewer was closed while
the decode was in flight, the late success callback runs to completion and
overwrites the global `currentModel` with the closed session's scene — state
is mutated after Closed. (iii) For contrast, a stale progress callback only
touches its own detached node, leaving the displayed progress of the current
session unchanged. -/
theorem c4_stale_callback_not_noop :
    ((successCb 0 (openModelViewer (openModelViewer viewerStart))).2 = true) ∧
    ((closeModelViewer (openModelViewer viewerStart)).currentModel = none ∧
     (successCb 0 (closeModelViewer (openModelViewer viewerStart))).1.currentModel
        = some 0) ∧
    (displayedTexts (progressCb 0 50 (openModelViewer (openModelViewer viewerStart)))
        = displayedTexts (openModelViewer (openModelViewer viewerStart))) := by
  refine ⟨by decide, ⟨by decide, by decide⟩, by decide⟩

end SearchJs
